import Mathlib

/-!
Shallow embedding of the virtual-memory core of the repository:
`src/framework/jinux-frame/src/vm/frame_allocator.rs` (the physical frame
allocator) and `src/ostd/src/mm/vm_space.rs` (virtual memory spaces, their
cursors and the TLB-flush policy).  Every definition is translated from the
source; the handful of collaborator constants whose definitions live outside
the provided sources are modelled from the spec and marked as such.
-/

/-- Page size in bytes (`PAGE_SIZE`, the same value in both crates). -/
def PAGE_SIZE : Nat := 4096

/-- Largest value of the 64-bit `usize` type (`usize::MAX`). -/
def USIZE_MAX : Nat := 2 ^ 64 - 1

/-- Modelled from the spec: the user address ceiling `MAX_USERSPACE_VADDR`
(defined in `ostd/src/mm`, outside the provided sources).  It is a
page-aligned ceiling of the lower, user half of the address space and in
particular lies strictly below `usize::MAX`. -/
def MAX_USERSPACE_VADDR : Nat := 0x800000000000 - PAGE_SIZE

/-- The reasons for which the modelled code aborts the kernel
(Rust `assert!` / `assert_eq!` / `panic!`).  An `Except.error` carrying a
`PanicKind` models an abort, not a recoverable error return. -/
inductive PanicKind where
  | unalignedRegion
  | unalignedLen
  | untrackedMapped
deriving DecidableEq

/-- The variants of `MemoryRegionsType` the allocator's `init` distinguishes:
usable regions are registered, everything else is skipped. -/
inductive MemoryRegionsType where
  | usable
  | reserved
deriving DecidableEq

/-- One boot memory region (`MemoryRegions`): a type tag plus a byte-granular
base address and length. -/
structure MemoryRegions where
  typ : MemoryRegionsType
  base : Nat
  len : Nat
deriving DecidableEq

/-- The underlying buddy allocator is the external `buddy_system_allocator`
crate; the state `init` establishes is, observably, the list of frame-index
ranges handed to `FrameAllocator::add_frame`, which is what we track. -/
abbrev AllocState := List (Nat × Nat)

namespace FrameAlloc

/-- The region loop of `init`: for each region marked `Usable`, assert that
base and length are page-aligned (`assert_eq!`, fatal on violation) and
register the frame-index range `start .. start + len / PAGE_SIZE` with the
fresh allocator (`add_frame`); other regions are skipped. -/
def buildAllocator : List MemoryRegions → Except PanicKind AllocState
  | [] => Except.ok []
  | region :: rest =>
    if region.typ = MemoryRegionsType.usable then
      if region.base % PAGE_SIZE = 0 then
        if region.len % PAGE_SIZE = 0 then
          (buildAllocator rest).map
            (fun st =>
              (region.base / PAGE_SIZE,
                region.base / PAGE_SIZE + region.len / PAGE_SIZE) :: st)
        else Except.error PanicKind.unalignedRegion
      else Except.error PanicKind.unalignedRegion
    else buildAllocator rest

/-- `init(regions)`: builds a fresh allocator from the usable regions and then
hands it to `FRAME_ALLOCATOR.call_once`.  `spin::Once::call_once` runs the
closure only when the cell is still empty; when the cell is already
initialized it keeps the existing value and the freshly built allocator is
dropped, so a second `init` neither aborts nor overwrites. -/
def init (regions : List MemoryRegions) (st : Option AllocState) :
    Except PanicKind (Option AllocState) :=
  (buildAllocator regions).map fun a =>
    match st with
    | none => some a
    | some s => some s

/-- An owned physical frame handle as `alloc`/`alloc_continuous` build it:
`VmFrame::new(paddr, VmFrameFlags::NEED_DEALLOC)`, i.e. a physical address
plus the dealloc-on-drop flag. -/
structure VmFrame where
  paddr : Nat
  needDealloc : Bool
deriving DecidableEq

/-- `alloc_continuous(frame_count)`: the underlying buddy allocator's
`alloc(frame_count)` (external crate, consumed abstractly as its returned
base index) yields `Some(start)` or `None`; on success the wrapper pushes one
`VmFrame` per `i in 0..frame_count` at physical address
`(start + i) * PAGE_SIZE`, all flagged `NEED_DEALLOC`. -/
def alloc_continuous (frame_count : Nat) (allocStart : Option Nat) :
    Option (List VmFrame) :=
  allocStart.map fun start =>
    (List.range frame_count).map fun i =>
      VmFrame.mk ((start + i) * PAGE_SIZE) true

end FrameAlloc

lemma buildAllocator_ok_of_aligned (regions : List MemoryRegions)
    (h : ∀ r ∈ regions, r.typ = MemoryRegionsType.usable →
      r.base % PAGE_SIZE = 0 ∧ r.len % PAGE_SIZE = 0) :
    ∃ a, FrameAlloc.buildAllocator regions = Except.ok a := by
  induction regions with
  | nil => exact ⟨[], rfl⟩
  | cons region rest ih =>
    have hrest : ∀ r ∈ rest, r.typ = MemoryRegionsType.usable →
        r.base % PAGE_SIZE = 0 ∧ r.len % PAGE_SIZE = 0 :=
      fun r hr => h r (List.mem_cons_of_mem _ hr)
    obtain ⟨a, ha⟩ := ih hrest
    by_cases hu : region.typ = MemoryRegionsType.usable
    · obtain ⟨hb, hl⟩ := h region (List.mem_cons_self _ _) hu
      refine ⟨(region.base / PAGE_SIZE,
        region.base / PAGE_SIZE + region.len / PAGE_SIZE) :: a, ?_⟩
      simp [FrameAlloc.buildAllocator, hu, hb, hl, ha, Except.map]
    · exact ⟨a, by simp [FrameAlloc.buildAllocator, hu, ha]⟩

/-- C1 (amended).  A second call to `init` after a successful first call is
not fatal: it either aborts on its own regions' alignment assertions (which
fire regardless of initialization state) or returns leaving the first call's
state exactly in place; in no case does `init` overwrite existing allocator
state.  With page-aligned usable regions the second call succeeds as a silent
no-op. -/
theorem c1_double_init_is_silent_noop (regions : List MemoryRegions)
    (s : AllocState) :
    ((∃ k, FrameAlloc.init regions (some s) = Except.error k)
        ∨ FrameAlloc.init regions (some s) = Except.ok (some s))
      ∧ ((∀ r ∈ regions, r.typ = MemoryRegionsType.usable →
            r.base % PAGE_SIZE = 0 ∧ r.len % PAGE_SIZE = 0) →
          FrameAlloc.init regions (some s) = Except.ok (some s)) := by
  constructor
  · cases h : FrameAlloc.buildAllocator regions with
    | error k => exact Or.inl ⟨k, by simp [FrameAlloc.init, h, Except.map]⟩
    | ok a => exact Or.inr (by simp [FrameAlloc.init, h, Except.map])
  · intro haligned
    obtain ⟨a, ha⟩ := buildAllocator_ok_of_aligned regions haligned
    simp [FrameAlloc.init, ha, Except.map]

/-- C1, counterexample to the claim as stated: after a successful first
`init`, a second `init` (with aligned usable regions) returns `Except.ok`
with the first call's state — it does not abort, contradicting the claimed
fatal double-initialization. -/
theorem c1_double_init_counterexample :
    FrameAlloc.init [⟨MemoryRegionsType.usable, 0, PAGE_SIZE⟩] none
        = Except.ok (some [(0, 1)])
      ∧ FrameAlloc.init [⟨MemoryRegionsType.usable, PAGE_SIZE, PAGE_SIZE⟩]
          (some [(0, 1)])
        = Except.ok (some [(0, 1)]) := by
  constructor <;> rfl

/-- C6.  Whenever `alloc_continuous(n)` returns frames at all, it returns
exactly `n` of them, at strictly increasing physical addresses spaced by
exactly one page starting at one base index — never a partial allocation. -/
theorem c6_alloc_continuous_all_or_nothing (frame_count : Nat)
    (allocStart : Option Nat) (frames : List FrameAlloc.VmFrame)
    (h : FrameAlloc.alloc_continuous frame_count allocStart = some frames) :
    frames.length = frame_count
      ∧ ∃ start, allocStart = some start
        ∧ frames.map FrameAlloc.VmFrame.paddr
            = (List.range frame_count).map (fun i => (start + i) * PAGE_SIZE)
        ∧ List.Pairwise (· < ·) (frames.map FrameAlloc.VmFrame.paddr)
        ∧ ∀ i, i + 1 < frame_count →
            (start + (i + 1)) * PAGE_SIZE = (start + i) * PAGE_SIZE + PAGE_SIZE := by
  cases allocStart with
  | none => simp [FrameAlloc.alloc_continuous] at h
  | some start =>
    have h2 : (List.range frame_count).map
        (fun i => FrameAlloc.VmFrame.mk ((start + i) * PAGE_SIZE) true) = frames := by
      simpa [FrameAlloc.alloc_continuous] using h
    subst h2
    refine ⟨by simp, start, rfl, ?_, ?_, ?_⟩
    · simp
    · rw [List.map_map]
      rw [List.pairwise_map]
      refine (List.pairwise_lt_range frame_count).imp ?_
      intro a b hab
      have : start + a < start + b := by omega
      have hp : 0 < PAGE_SIZE := by norm_num [PAGE_SIZE]
      exact (Nat.mul_lt_mul_right hp).mpr this
    · intro i _
      ring

/-- C6 witness: a concrete three-frame contiguous allocation at base index 2. -/
theorem c6_alloc_continuous_witness :
    ([⟨8192, true⟩, ⟨12288, true⟩, ⟨16384, true⟩] :
        List FrameAlloc.VmFrame).length = 3 :=
  (c6_alloc_continuous_all_or_nothing 3 (some 2)
    [⟨8192, true⟩, ⟨12288, true⟩, ⟨16384, true⟩] (by decide)).1

/-!
The virtual-memory space (`src/ostd/src/mm/vm_space.rs`).  The page-table
collaborator is consumed through its items: we model the user page table as
an association list from page-aligned virtual addresses to slot contents,
kept sorted by address in wellformed states (the page-table cursor hands out
items in ascending address order).
-/

/-- The permission bits of `PageFlags` the source manipulates
(`R`, `W`, `X`, `ACCESSED`). -/
structure PageFlags where
  r : Bool
  w : Bool
  x : Bool
  accessed : Bool
deriving DecidableEq

/-- The mapping property of one slot (`PageProperty`): its flags plus the
remaining fields (cache policy, privileged flags), which the source never
inspects here and which we carry opaquely as one tag. -/
structure PageProperty where
  flags : PageFlags
  rest : Nat
deriving DecidableEq

/-- A page handle held by a page-table slot: either one convertible into an
owned `Frame` handle (untyped memory) or a typed page, whose presence in a
`VmSpace` makes `TryFrom<PageTableItem> for VmItem` fail. -/
inductive PageKind where
  | frame (id : Nat)
  | typed (id : Nat)
deriving DecidableEq

/-- What one present page-table slot holds: a tracked mapped page, or
untracked memory (`PageTableItem::MappedUntracked`). -/
inductive SlotContent where
  | mapped (page : PageKind) (prop : PageProperty)
  | untracked (pa : Nat) (len : Nat) (prop : PageProperty)
deriving DecidableEq

/-- The user page table: page-aligned virtual address to slot content. -/
abbrev PT := List (Nat × SlotContent)

/-- Apply a property transformation to a slot, as the page-table cursor's
`protect_next` does to any present entry. -/
def SlotContent.applyProp (op : PageProperty → PageProperty) :
    SlotContent → SlotContent
  | SlotContent.mapped page prop => SlotContent.mapped page (op prop)
  | SlotContent.untracked pa len prop => SlotContent.untracked pa len (op prop)

/-- Whether a slot holds a tracked mapped page. -/
def SlotContent.isTracked : SlotContent → Bool
  | SlotContent.mapped _ _ => true
  | SlotContent.untracked _ _ _ => false

/-- Look a virtual address up in the table. -/
def lookupPT (pt : PT) (va : Nat) : Option SlotContent :=
  (pt.find? (fun e => e.1 == va)).map (fun e => e.2)

/-- Install (or replace) the slot at `va`, keeping the table sorted. -/
def insertPT : PT → Nat → SlotContent → PT
  | [], va, c => [(va, c)]
  | e :: rest, va, c =>
    if va < e.1 then (va, c) :: e :: rest
    else if va = e.1 then (va, c) :: rest
    else e :: insertPT rest va c

/-- One TLB invalidation the architecture layer is asked for:
`tlb_flush_addr`, `tlb_flush_addr_range` or `tlb_flush_all_excluding_global`. -/
inductive FlushEvent where
  | addr (va : Nat)
  | range (lo hi : Nat)
  | all
deriving DecidableEq

/-- `PageTableItem`, the page-table cursor's query/take result. -/
inductive PageTableItem where
  | notMapped (va len : Nat)
  | mapped (va : Nat) (page : PageKind) (prop : PageProperty)
  | mappedUntracked (va pa len : Nat) (prop : PageProperty)
deriving DecidableEq

/-- `VmItem`, the result of querying one slot of a `VmSpace`. -/
inductive VmItem where
  | notMapped (va len : Nat)
  | mapped (va : Nat) (frame : Nat) (prop : PageProperty)
deriving DecidableEq

/-- Modelled from the spec: the page-table collaborator's error type for
malformed cursor ranges (the recoverable, cursor-position errors the `?`
operator propagates out of `query`/`jump`; its exact variants live outside
the provided sources). -/
inductive PageTableError where
  | invalidVaddrRange (lo hi : Nat)
  | unalignedVaddr (va : Nat)
deriving DecidableEq

/-- `TryFrom<PageTableItem> for VmItem`: `NotMapped` and frame-backed
`Mapped` items convert; a mapped page that is not convertible into an owned
`Frame` handle, and untracked memory, fail with the messages the source
carries. -/
def vmItemTryFrom : PageTableItem → Except String VmItem
  | PageTableItem.notMapped va len => Except.ok (VmItem.notMapped va len)
  | PageTableItem.mapped va page prop =>
    match page with
    | PageKind.frame id => Except.ok (VmItem.mapped va id prop)
    | PageKind.typed _ =>
      Except.error "found typed memory mapped into `VmSpace`"
  | PageTableItem.mappedUntracked _ _ _ _ =>
    Except.error "found untracked memory mapped into `VmSpace`"

/-- The three ways `Cursor::query`/`CursorMut::query` can end: an `Ok`
`VmItem`, a propagated page-table error (`?`), or a panic
(`try_into().unwrap()` on a failing conversion). -/
inductive QueryOutcome where
  | ok (item : VmItem)
  | err (e : PageTableError)
  | panic (msg : String)
deriving DecidableEq

/-- `Cursor::query`, given what the inner page-table cursor's `query`
returned: `Ok(self.0.query().map(|item| item.try_into().unwrap())?)`. -/
def Cursor.query (inner : Except PageTableError PageTableItem) : QueryOutcome :=
  match inner with
  | Except.error e => QueryOutcome.err e
  | Except.ok item =>
    match vmItemTryFrom item with
    | Except.ok v => QueryOutcome.ok v
    | Except.error m => QueryOutcome.panic m

/-- `CursorMut::query`: the same body as `Cursor::query`. -/
def CursorMut.query (inner : Except PageTableError PageTableItem) :
    QueryOutcome :=
  match inner with
  | Except.error e => QueryOutcome.err e
  | Except.ok item =>
    match vmItemTryFrom item with
    | Except.ok v => QueryOutcome.ok v
    | Except.error m => QueryOutcome.panic m

/-- `CursorMut::TLB_FLUSH_THRESHOLD = 32 * PAGE_SIZE`. -/
def CursorMut.TLB_FLUSH_THRESHOLD : Nat := 32 * PAGE_SIZE

/-- The `take_next` loop of `CursorMut::unmap` over `[lo, hi)`, on a table
sorted by address: entries below `lo` are untouched, the first entry at or
past `hi` ends the walk (`PageTableItem::NotMapped` breaks the loop), a
tracked entry in range is removed and its address recorded in walk order,
and untracked memory panics (`panic!("found untracked memory mapped into
`VmSpace`")`, modelled as `PanicKind.untrackedMapped`). -/
def unmapRange : PT → Nat → Nat → Except PanicKind (PT × List Nat)
  | [], _, _ => Except.ok ([], [])
  | e :: rest, lo, hi =>
    if e.1 < lo then
      match unmapRange rest lo hi with
      | Except.error k => Except.error k
      | Except.ok (pt, vas) => Except.ok (e :: pt, vas)
    else if hi ≤ e.1 then Except.ok (e :: rest, [])
    else
      match e.2.isTracked with
      | true =>
        match unmapRange rest lo hi with
        | Except.error k => Except.error k
        | Except.ok (pt, vas) => Except.ok (pt, e.1 :: vas)
      | false => Except.error PanicKind.untrackedMapped

/-- The `protect_next` loop over `[lo, hi)` on a sorted table: every present
entry in range (tracked or untracked) has `op` applied to its property and
its range start recorded in walk order; `protect_next` returning `None` (the
first entry at or past `hi`, or table exhaustion) ends the walk. -/
def protectRange (op : PageProperty → PageProperty) :
    PT → Nat → Nat → PT × List Nat
  | [], _, _ => ([], [])
  | e :: rest, lo, hi =>
    if e.1 < lo then
      let step := protectRange op rest lo hi
      (e :: step.1, step.2)
    else if hi ≤ e.1 then (e :: rest, [])
    else
      let step := protectRange op rest lo hi
      ((e.1, SlotContent.applyProp op e.2) :: step.1, e.1 :: step.2)

/-- `CursorMut::unmap(len)`: asserts `len % PAGE_SIZE == 0` (fatal), walks
`[pos, pos + len)` removing tracked mappings, flushing each removed address
individually while `len < TLB_FLUSH_THRESHOLD`, and issuing exactly one
`tlb_flush_all_excluding_global` instead when `len >= TLB_FLUSH_THRESHOLD`. -/
def CursorMut.unmap (pt : PT) (pos len : Nat) :
    Except PanicKind (PT × List FlushEvent) :=
  if len % PAGE_SIZE = 0 then
    match unmapRange pt pos (pos + len) with
    | Except.error k => Except.error k
    | Except.ok (pt2, removed) =>
      Except.ok (pt2,
        if CursorMut.TLB_FLUSH_THRESHOLD ≤ len then [FlushEvent.all]
        else removed.map FlushEvent.addr)
  else Except.error PanicKind.unalignedLen

/-- `CursorMut::protect(len, op)`: asserts `len % PAGE_SIZE == 0` (fatal),
applies `op` to every present entry of `[pos, pos + len)`, flushing each
protected range's start individually while `len < TLB_FLUSH_THRESHOLD`, and
issuing exactly one `tlb_flush_all_excluding_global` instead when
`len >= TLB_FLUSH_THRESHOLD`. -/
def CursorMut.protect (pt : PT) (pos len : Nat)
    (op : PageProperty → PageProperty) :
    Except PanicKind (PT × List FlushEvent) :=
  if len % PAGE_SIZE = 0 then
    let step := protectRange op pt pos (pos + len)
    Except.ok (step.1,
      if CursorMut.TLB_FLUSH_THRESHOLD ≤ len then [FlushEvent.all]
      else step.2.map FlushEvent.addr)
  else Except.error PanicKind.unalignedLen

/-- `prop.flags |= PageFlags::ACCESSED`, which `CursorMut::map` forces. -/
def setAccessed (prop : PageProperty) : PageProperty :=
  { prop with flags := { prop.flags with accessed := true } }

/-- `CursorMut::map(frame, prop)`: installs the frame at the cursor's
address with the `ACCESSED` flag forced, then flushes exactly the newly
mapped extent (`tlb_flush_addr_range(start_va..end_va)`, one frame long). -/
def CursorMut.map (pt : PT) (va : Nat) (page : PageKind)
    (prop : PageProperty) : PT × List FlushEvent :=
  (insertPT pt va (SlotContent.mapped page (setAccessed prop)),
   [FlushEvent.range va (va + PAGE_SIZE)])

/-- `VmSpace`, parametric in the handler type `H` standing for the Rust
function pointer `fn(&VmSpace, &CpuExceptionInfo) -> Result<(), ()>`: the
user page table, the `Once`-cell page-fault handler, and the set of CPUs the
space is activated on. -/
structure VmSpace (H : Type) where
  pt : PT
  pageFaultHandler : Option H
  activatedCpus : List Nat
deriving DecidableEq

/-- The property transformation of `fork_copy_on_write`:
`prop.flags -= PageFlags::W`. -/
def cowOp (prop : PageProperty) : PageProperty :=
  { prop with flags := { prop.flags with w := false } }

/-- `VmSpace::fork_copy_on_write`: removes the write permission from every
mapped slot of the parent's whole user range (`protect_next` loop over
`0..MAX_USERSPACE_VADDR`, with no per-range flush), then issues exactly one
`tlb_flush_all_excluding_global`, clones the table sharing the same page
handles (`clone_with`), copies the handler value into a fresh `Once`, and
starts the child with an empty activation set.  Returns
(parent after the walk, child, TLB flushes issued). -/
def VmSpace.fork_copy_on_write {H : Type} (vs : VmSpace H) :
    VmSpace H × VmSpace H × List FlushEvent :=
  let pt2 := (protectRange cowOp vs.pt 0 MAX_USERSPACE_VADDR).1
  ({ vs with pt := pt2 },
   { pt := pt2, pageFaultHandler := vs.pageFaultHandler, activatedCpus := [] },
   [FlushEvent.all])

/-- `VmSpace::handle_page_fault(info)`: if the `Once` cell holds a handler,
call it with this space and the fault info and return its verdict; else
`Err(())`.  `invoke` is function-pointer application. -/
def VmSpace.handle_page_fault {H : Type} (vs : VmSpace H)
    (invoke : H → VmSpace H → Nat → Except Unit Unit) (info : Nat) :
    Except Unit Unit :=
  match vs.pageFaultHandler with
  | some func => invoke func vs info
  | none => Except.error ()

/-- `VmSpace::register_page_fault_handler(func)`:
`self.page_fault_handler.call_once(|| func)` — the first registration wins,
later calls leave the cell untouched. -/
def VmSpace.register_page_fault_handler {H : Type} (vs : VmSpace H)
    (func : H) : VmSpace H :=
  match vs.pageFaultHandler with
  | some _ => vs
  | none => { vs with pageFaultHandler := some func }

/-- The error type of `ostd::Error` as far as this subsystem returns it. -/
inductive OstdError where
  | accessDenied
  | invalidArgs
deriving DecidableEq

/-- The accessor `VmReader::from_user_space(vaddr, len)` is constructed
over (its base address and length are what the checks authorize). -/
structure VmReaderM where
  base : Nat
  len : Nat
deriving DecidableEq

/-- The accessor `VmWriter::from_user_space(vaddr, len)` is constructed over. -/
structure VmWriterM where
  base : Nat
  len : Nat
deriving DecidableEq

/-- `usize::checked_add`. -/
def checkedAdd (a b : Nat) : Option Nat :=
  if a + b ≤ USIZE_MAX then some (a + b) else none

/-- `VmSpace::reader(vaddr, len)`: fails with `Error::AccessDenied` when the
current context's active root table (`current_page_table_paddr()`) is not
this space's root (`self.pt.root_paddr()`), or when
`vaddr.checked_add(len).unwrap_or(usize::MAX) > MAX_USERSPACE_VADDR`;
otherwise constructs the reader over `[vaddr, vaddr + len)`. -/
def VmSpace.reader (rootPaddr currentPaddr vaddr len : Nat) :
    Except OstdError VmReaderM :=
  if currentPaddr ≠ rootPaddr then Except.error OstdError.accessDenied
  else if MAX_USERSPACE_VADDR < (checkedAdd vaddr len).getD USIZE_MAX then
    Except.error OstdError.accessDenied
  else Except.ok { base := vaddr, len := len }

/-- `VmSpace::writer(vaddr, len)`: the same two checks as `reader`, then
constructs the writer over `[vaddr, vaddr + len)`. -/
def VmSpace.writer (rootPaddr currentPaddr vaddr len : Nat) :
    Except OstdError VmWriterM :=
  if currentPaddr ≠ rootPaddr then Except.error OstdError.accessDenied
  else if MAX_USERSPACE_VADDR < (checkedAdd vaddr len).getD USIZE_MAX then
    Except.error OstdError.accessDenied
  else Except.ok { base := vaddr, len := len }

/-- The per-CPU activation state `activate` manipulates: each space's
`activated_cpus` set (spaces keyed by an identifier, absent means empty) and
each CPU's `LAST_ACTIVATED_VM_SPACE` pointer (absent means null, i.e. the
kernel page table). -/
structure ActWorld where
  cpusOf : List (Nat × List Nat)
  lastActivated : List (Nat × Nat)
deriving DecidableEq

/-- A space's `activated_cpus` set. -/
def ActWorld.getCpus (w : ActWorld) (sid : Nat) : List Nat :=
  ((w.cpusOf.find? (fun e => e.1 == sid)).map (fun e => e.2)).getD []

/-- Replace one key's value in an association list (insert when absent). -/
def setAssocCpus : List (Nat × List Nat) → Nat → List Nat → List (Nat × List Nat)
  | [], k, v => [(k, v)]
  | e :: rest, k, v =>
    if e.1 = k then (k, v) :: rest else e :: setAssocCpus rest k v

/-- Update a space's `activated_cpus` set. -/
def ActWorld.setCpus (w : ActWorld) (sid : Nat) (cpus : List Nat) : ActWorld :=
  { w with cpusOf := setAssocCpus w.cpusOf sid cpus }

/-- The CPU's `LAST_ACTIVATED_VM_SPACE` (none models the null pointer). -/
def ActWorld.getLast (w : ActWorld) (cpu : Nat) : Option Nat :=
  (w.lastActivated.find? (fun e => e.1 == cpu)).map (fun e => e.2)

/-- Replace one key's value in an association list (insert when absent). -/
def setAssocLast : List (Nat × Nat) → Nat → Nat → List (Nat × Nat)
  | [], k, v => [(k, v)]
  | e :: rest, k, v =>
    if e.1 = k then (k, v) :: rest else e :: setAssocLast rest k v

/-- Store the CPU's `LAST_ACTIVATED_VM_SPACE`. -/
def ActWorld.setLast (w : ActWorld) (cpu sid : Nat) : ActWorld :=
  { w with lastActivated := setAssocLast w.lastActivated cpu sid }

/-- The externally visible effects of one `activate` call: whether the
hardware root table was reprogrammed (`self.pt.activate()`), which space (if
any) had this CPU evicted from its activation set, and whether the
more-than-one-CPU warning was logged. -/
structure ActEffects where
  hwSwitch : Bool
  evictedFrom : Option Nat
  warned : Bool
deriving DecidableEq

/-- `VmSpace::activate` on `cpu` for the space `sid`: when the CPU is
already in the space's activation set the whole conditional block is
skipped — no set update, no hardware switch, no eviction; otherwise the CPU
is added, the hardware root table is switched, the previously last-activated
space (when not null) has this CPU removed from its set, and this space is
recorded as last-activated.  Finally, a warning is logged when the set now
has more than one CPU. -/
def VmSpace.activate (w : ActWorld) (sid cpu : Nat) : ActWorld × ActEffects :=
  let cpus := w.getCpus sid
  if cpu ∈ cpus then
    (w, { hwSwitch := false, evictedFrom := none,
          warned := decide (1 < cpus.length) })
  else
    let w1 := w.setCpus sid (cpus ++ [cpu])
    let step :=
      match w1.getLast cpu with
      | none => (w1, (none : Option Nat))
      | some lastSid =>
        (w1.setCpus lastSid ((w1.getCpus lastSid).filter (fun c => c ≠ cpu)),
         some lastSid)
    let w3 := step.1.setLast cpu sid
    (w3, { hwSwitch := true, evictedFrom := step.2,
           warned := decide (1 < (w3.getCpus sid).length) })

/-- C3.  `reader` and `writer` return `AccessDenied` exactly when the calling
context's active root table differs from this space's root, or `vaddr + len`
overflows `usize`, or `vaddr + len` exceeds the user address ceiling; in
every other case they construct the accessor over `[vaddr, vaddr + len)`. -/
theorem c3_reader_writer_access_checks (rootPaddr currentPaddr vaddr len : Nat) :
    (VmSpace.reader rootPaddr currentPaddr vaddr len
        = Except.error OstdError.accessDenied
      ↔ (currentPaddr ≠ rootPaddr ∨ USIZE_MAX < vaddr + len
          ∨ MAX_USERSPACE_VADDR < vaddr + len))
    ∧ (VmSpace.writer rootPaddr currentPaddr vaddr len
        = Except.error OstdError.accessDenied
      ↔ (currentPaddr ≠ rootPaddr ∨ USIZE_MAX < vaddr + len
          ∨ MAX_USERSPACE_VADDR < vaddr + len))
    ∧ (currentPaddr = rootPaddr → vaddr + len ≤ MAX_USERSPACE_VADDR →
        VmSpace.reader rootPaddr currentPaddr vaddr len
            = Except.ok { base := vaddr, len := len }
          ∧ VmSpace.writer rootPaddr currentPaddr vaddr len
            = Except.ok { base := vaddr, len := len }) := by
  have hM : MAX_USERSPACE_VADDR < USIZE_MAX := by
    norm_num [MAX_USERSPACE_VADDR, USIZE_MAX, PAGE_SIZE]
  by_cases hc : currentPaddr = rootPaddr <;>
    by_cases hov : vaddr + len ≤ USIZE_MAX <;>
      by_cases hex : MAX_USERSPACE_VADDR < vaddr + len <;>
        simp [VmSpace.reader, VmSpace.writer, checkedAdd, hc, hov, hex] <;>
          omega

/-- A `take_next`/`protect_next` walk can only abort on untracked memory;
the alignment assertion is not part of the walk. -/
lemma unmapRange_error_untracked : ∀ (pt : PT) (lo hi : Nat) (k : PanicKind),
    unmapRange pt lo hi = Except.error k → k = PanicKind.untrackedMapped := by
  intro pt
  induction pt with
  | nil => intro lo hi k h; simp [unmapRange] at h
  | cons e rest ih =>
    intro lo hi k h
    simp only [unmapRange] at h
    split at h
    · cases h2 : unmapRange rest lo hi with
      | error k2 =>
        rw [h2] at h
        cases h
        exact ih lo hi _ h2
      | ok pr => rw [h2] at h; simp at h
    · split at h
      · simp at h
      · cases htr : e.2.isTracked with
        | true =>
          rw [htr] at h
          cases h2 : unmapRange rest lo hi with
          | error k2 => rw [h2] at h; cases h; exact ih lo hi k h2
          | ok pr => rw [h2] at h; simp at h
        | false =>
          rw [htr] at h
          simp only [Except.error.injEq] at h
          exact h.symm

/-- C7.  For a length that is not a multiple of the page size, both
`CursorMut::unmap` and `CursorMut::protect` abort on the leading
`assert!(len % PAGE_SIZE == 0)` before touching any mapping — the abort is a
panic, not a recoverable error return, and carries no modified table.  For a
page-aligned length that fatal branch is unreachable: `unmap` can then abort
only on untracked memory, and `protect` always returns. -/
theorem c7_unmap_protect_alignment_assert (pt : PT) (pos len : Nat)
    (op : PageProperty → PageProperty) :
    (¬ len % PAGE_SIZE = 0 →
        CursorMut.unmap pt pos len = Except.error PanicKind.unalignedLen
          ∧ CursorMut.protect pt pos len op
            = Except.error PanicKind.unalignedLen)
      ∧ (len % PAGE_SIZE = 0 →
          CursorMut.unmap pt pos len ≠ Except.error PanicKind.unalignedLen
            ∧ ∃ r, CursorMut.protect pt pos len op = Except.ok r) := by
  constructor
  · intro hal
    constructor
    · simp [CursorMut.unmap, hal]
    · simp [CursorMut.protect, hal]
  · intro hal
    constructor
    · simp only [CursorMut.unmap, hal, if_true]
      cases h2 : unmapRange pt pos (pos + len) with
      | error k =>
        have := unmapRange_error_untracked pt pos (pos + len) k h2
        subst this
        simp
      | ok pr => simp
    · exact ⟨((protectRange op pt pos (pos + len)).1,
        if CursorMut.TLB_FLUSH_THRESHOLD ≤ len then [FlushEvent.all]
        else (protectRange op pt pos (pos + len)).2.map FlushEvent.addr),
        by simp [CursorMut.protect, hal]⟩

/-- C10.  `Cursor::query` and `CursorMut::query` propagate an `Err` exactly
when the inner page-table cursor's query failed (a cursor-position error);
when the inner query succeeds but the slot holds untracked memory, or a
mapped page that cannot be converted into an owned `Frame` handle, both
panic (`try_into().unwrap()`) rather than returning an error or a `VmItem`. -/
theorem c10_query_panics_on_untracked (inner : Except PageTableError PageTableItem) :
    (∀ e, Cursor.query inner = QueryOutcome.err e ↔ inner = Except.error e)
      ∧ (∀ e, CursorMut.query inner = QueryOutcome.err e
          ↔ inner = Except.error e)
      ∧ (∀ va pa l p,
          inner = Except.ok (PageTableItem.mappedUntracked va pa l p) →
            Cursor.query inner
                = QueryOutcome.panic "found untracked memory mapped into `VmSpace`"
              ∧ CursorMut.query inner
                = QueryOutcome.panic "found untracked memory mapped into `VmSpace`")
      ∧ (∀ va id p,
          inner = Except.ok (PageTableItem.mapped va (PageKind.typed id) p) →
            Cursor.query inner
                = QueryOutcome.panic "found typed memory mapped into `VmSpace`"
              ∧ CursorMut.query inner
                = QueryOutcome.panic "found typed memory mapped into `VmSpace`") := by
  refine ⟨?_, ?_, ?_, ?_⟩
  · intro e
    cases inner with
    | error e0 => simp [Cursor.query]
    | ok item =>
      cases item with
      | notMapped va len => simp [Cursor.query, vmItemTryFrom]
      | mapped va page prop =>
        cases page <;> simp [Cursor.query, vmItemTryFrom]
      | mappedUntracked va pa l p => simp [Cursor.query, vmItemTryFrom]
  · intro e
    cases inner with
    | error e0 => simp [CursorMut.query]
    | ok item =>
      cases item with
      | notMapped va len => simp [CursorMut.query, vmItemTryFrom]
      | mapped va page prop =>
        cases page <;> simp [CursorMut.query, vmItemTryFrom]
      | mappedUntracked va pa l p => simp [CursorMut.query, vmItemTryFrom]
  · intro va pa l p h
    subst h
    exact ⟨rfl, rfl⟩
  · intro va id p h
    subst h
    exact ⟨rfl, rfl⟩

/-- C8 (amended).  `handle_page_fault` returns the fault-unhandled error
when no handler is registered; when one is registered it invokes the
first-registered handler with this space and the fault description and
returns that handler's verdict — which may itself equal the unhandled-fault
error value, so the error does not certify that no handler was registered.
Registrations after the first leave the installed handler unchanged. -/
theorem c8_page_fault_dispatch (H : Type) (vs : VmSpace H)
    (invoke : H → VmSpace H → Nat → Except Unit Unit) (info : Nat)
    (f g : H) :
    (vs.pageFaultHandler = none →
        VmSpace.handle_page_fault vs invoke info = Except.error ())
      ∧ (∀ f0, vs.pageFaultHandler = some f0 →
          VmSpace.handle_page_fault vs invoke info = invoke f0 vs info)
      ∧ VmSpace.register_page_fault_handler
            (VmSpace.register_page_fault_handler vs f) g
          = VmSpace.register_page_fault_handler vs f
      ∧ (VmSpace.register_page_fault_handler vs f).pageFaultHandler
          = some (vs.pageFaultHandler.getD f) := by
  refine ⟨?_, ?_, ?_, ?_⟩
  · intro h
    simp [VmSpace.handle_page_fault, h]
  · intro f0 h
    simp [VmSpace.handle_page_fault, h]
  · cases h : vs.pageFaultHandler <;>
      simp [VmSpace.register_page_fault_handler, h]
  · cases h : vs.pageFaultHandler <;>
      simp [VmSpace.register_page_fault_handler, h]

/-- C8, counterexample to the claim as stated: a `VmSpace` with a registered
handler whose verdict is `Err(())` makes `handle_page_fault` return the very
same error value as the fault-unhandled case, so returning that error does
not imply that no handler has been registered. -/
theorem c8_page_fault_dispatch_counterexample :
    VmSpace.handle_page_fault
        ({ pt := [], pageFaultHandler := some 0, activatedCpus := [] } : VmSpace Nat)
        (fun _ _ _ => Except.error ()) 0
      = Except.error ()
    ∧ ({ pt := [], pageFaultHandler := some 0, activatedCpus := [] } :
        VmSpace Nat).pageFaultHandler = some 0 :=
  ⟨rfl, rfl⟩

/-- C2 (amended).  Step (1) of `fork_copy_on_write` — the write-permission
removal walk over the parent's whole user range — performs no per-range TLB
flush at all; the fork always ends the walk with exactly one unconditional
`tlb_flush_all_excluding_global`, whatever the affected extent is, with no
threshold comparison involved. -/
theorem c2_fork_always_flushes_all (H : Type) (vs : VmSpace H) :
    (VmSpace.fork_copy_on_write vs).2.2 = [FlushEvent.all] := rfl

/-- A read-write property for concrete examples. -/
def propRW : PageProperty :=
  { flags := { r := true, w := true, x := false, accessed := false }, rest := 0 }

/-- A one-page parent space for the C2 counterexample. -/
def vsC2 : VmSpace Nat :=
  { pt := [(0, SlotContent.mapped (PageKind.frame 7) propRW)],
    pageFaultHandler := none, activatedCpus := [] }

/-- C2, counterexample to the claim as stated: a parent with a single mapped
page (affected extent one page, far below the threshold) still gets exactly
one bulk flush from `fork_copy_on_write` — not one flush per affected
range — so the bulk flush is not reserved for extents above the threshold. -/
theorem c2_fork_flush_counterexample :
    (VmSpace.fork_copy_on_write vsC2).2.2 = [FlushEvent.all]
      ∧ (protectRange cowOp vsC2.pt 0 MAX_USERSPACE_VADDR).2 = [0]
      ∧ vsC2.pt.length * PAGE_SIZE ≤ CursorMut.TLB_FLUSH_THRESHOLD
      ∧ decide ((VmSpace.fork_copy_on_write vsC2).2.2
          = [FlushEvent.range 0 PAGE_SIZE]) = false
      ∧ decide ((VmSpace.fork_copy_on_write vsC2).2.2
          = [FlushEvent.addr 0]) = false := by
  refine ⟨rfl, by decide, by decide, by decide, by decide⟩

/-- C9.  Re-activating a `VmSpace` on a CPU already in its activation set is
a no-op: the whole world (every activation set and every CPU's last-activated
record) is unchanged, the hardware root table is not reprogrammed, and no
other space has the CPU evicted from its set. -/
theorem c9_activate_idempotent (w : ActWorld) (sid cpu : Nat)
    (h : cpu ∈ w.getCpus sid) :
    VmSpace.activate w sid cpu
      = (w, { hwSwitch := false, evictedFrom := none,
              warned := decide (1 < (w.getCpus sid).length) }) := by
  simp [VmSpace.activate, h]

/-- C9 witness: a world where space 1 is already active on CPU 0. -/
theorem c9_activate_idempotent_witness :
    VmSpace.activate { cpusOf := [(1, [0])], lastActivated := [(0, 1)] } 1 0
      = ({ cpusOf := [(1, [0])], lastActivated := [(0, 1)] },
         { hwSwitch := false, evictedFrom := none, warned := false }) :=
  c9_activate_idempotent
    { cpusOf := [(1, [0])], lastActivated := [(0, 1)] } 1 0 (by decide)

/-- The addresses of the tracked mapped slots of `[lo, hi)`, in table order
(ascending when the table is sorted): the mappings a `take_next` walk over
that range removes. -/
def trackedKeysIn (pt : PT) (lo hi : Nat) : List Nat :=
  pt.filterMap fun e =>
    if lo ≤ e.1 ∧ e.1 < hi ∧ e.2.isTracked = true then some e.1 else none

/-- The addresses of all present slots of `[lo, hi)`, in table order: the
entries a `protect_next` walk over that range touches. -/
def keysIn (pt : PT) (lo hi : Nat) : List Nat :=
  pt.filterMap fun e => if lo ≤ e.1 ∧ e.1 < hi then some e.1 else none

/-- On a sorted table, a successful `take_next` walk removes exactly the
tracked mapped slots of its range, in ascending order. -/
lemma unmapRange_removed : ∀ (pt : PT) (lo hi : Nat),
    List.Pairwise (fun a b => a.1 < b.1) pt →
    ∀ (pt2 : PT) (vas : List Nat),
      unmapRange pt lo hi = Except.ok (pt2, vas) →
        vas = trackedKeysIn pt lo hi := by
  intro pt
  induction pt with
  | nil =>
    intro lo hi _ pt2 vas h
    simp only [unmapRange, Except.ok.injEq, Prod.mk.injEq] at h
    obtain ⟨-, h2⟩ := h
    subst h2
    simp [trackedKeysIn]
  | cons e rest ih =>
    intro lo hi hs pt2 vas h
    have hhead : ∀ b ∈ rest, e.1 < b.1 := (List.pairwise_cons.mp hs).1
    have htail := (List.pairwise_cons.mp hs).2
    simp only [unmapRange] at h
    split at h
    · next hlt =>
      cases h2 : unmapRange rest lo hi with
      | error k => rw [h2] at h; simp at h
      | ok pr =>
        rw [h2] at h
        simp only [Except.ok.injEq, Prod.mk.injEq] at h
        have hvas : vas = pr.2 := h.2.symm
        subst hvas
        rw [ih lo hi htail pr.1 pr.2 (by rw [h2])]
        have hcond : ¬ (lo ≤ e.1 ∧ e.1 < hi ∧ e.2.isTracked = true) := by
          rintro ⟨h1, -, -⟩; omega
        simp [trackedKeysIn, List.filterMap_cons, hcond]
    · split at h
      · next hnlt hge =>
        simp only [Except.ok.injEq, Prod.mk.injEq] at h
        have hvas : vas = [] := h.2.symm
        subst hvas
        symm
        simp only [trackedKeysIn]
        rw [List.filterMap_eq_nil_iff]
        intro a ha
        rcases List.mem_cons.mp ha with rfl | hmem
        · have : ¬ (lo ≤ a.1 ∧ a.1 < hi ∧ a.2.isTracked = true) := by
            rintro ⟨-, h2, -⟩; omega
          simp [this]
        · have hlt2 := hhead a hmem
          have : ¬ (lo ≤ a.1 ∧ a.1 < hi ∧ a.2.isTracked = true) := by
            rintro ⟨-, h2, -⟩; omega
          simp [this]
      · next hnlt hnge =>
        cases htr : e.2.isTracked with
        | true =>
          rw [htr] at h
          cases h2 : unmapRange rest lo hi with
          | error k => rw [h2] at h; simp at h
          | ok pr =>
            rw [h2] at h
            simp only [Except.ok.injEq, Prod.mk.injEq] at h
            have hvas : vas = e.1 :: pr.2 := h.2.symm
            subst hvas
            rw [ih lo hi htail pr.1 pr.2 (by rw [h2])]
            have hcond : lo ≤ e.1 ∧ e.1 < hi ∧ e.2.isTracked = true :=
              ⟨by omega, by omega, htr⟩
            simp [trackedKeysIn, List.filterMap_cons, hcond]
        | false =>
          rw [htr] at h
          simp at h

/-- On a sorted table, a `protect_next` walk touches exactly the present
slots of its range, in ascending order. -/
lemma protectRange_touched (op : PageProperty → PageProperty) :
    ∀ (pt : PT) (lo hi : Nat),
      List.Pairwise (fun a b => a.1 < b.1) pt →
      (protectRange op pt lo hi).2 = keysIn pt lo hi := by
  intro pt
  induction pt with
  | nil => intro lo hi _; simp [protectRange, keysIn]
  | cons e rest ih =>
    intro lo hi hs
    have hhead : ∀ b ∈ rest, e.1 < b.1 := (List.pairwise_cons.mp hs).1
    have htail := (List.pairwise_cons.mp hs).2
    simp only [protectRange]
    split
    · next hlt =>
      have hcond : ¬ (lo ≤ e.1 ∧ e.1 < hi) := by rintro ⟨h1, -⟩; omega
      rw [ih lo hi htail]
      simp [keysIn, List.filterMap_cons, hcond]
    · split
      · next hnlt hge =>
        symm
        simp only [keysIn]
        rw [List.filterMap_eq_nil_iff]
        intro a ha
        rcases List.mem_cons.mp ha with rfl | hmem
        · have : ¬ (lo ≤ a.1 ∧ a.1 < hi) := by rintro ⟨-, h2⟩; omega
          simp [this]
        · have hlt2 := hhead a hmem
          have : ¬ (lo ≤ a.1 ∧ a.1 < hi) := by rintro ⟨-, h2⟩; omega
          simp [this]
      · next hnlt hnge =>
        have hcond : lo ≤ e.1 ∧ e.1 < hi := ⟨by omega, by omega⟩
        rw [ih lo hi htail]  -- goal mentions step.2 via let
        simp [keysIn, List.filterMap_cons, hcond]

/-- C4.  For `CursorMut::unmap` and `CursorMut::protect`, when the walk
returns, the TLB flushes issued are: one `tlb_flush_addr` per affected
mapping, in walk order, when `len` is below the threshold of 32 pages'
worth of address span; and exactly one `tlb_flush_all_excluding_global`,
with no per-address flushes, when `len` is at or above that threshold. -/
theorem c4_unmap_protect_tlb_threshold (pt : PT) (pos len : Nat)
    (op : PageProperty → PageProperty)
    (hsorted : List.Pairwise (fun a b => a.1 < b.1) pt) :
    CursorMut.TLB_FLUSH_THRESHOLD = 32 * PAGE_SIZE
      ∧ (∀ pt2 tr, CursorMut.unmap pt pos len = Except.ok (pt2, tr) →
          (len < CursorMut.TLB_FLUSH_THRESHOLD →
              tr = (trackedKeysIn pt pos (pos + len)).map FlushEvent.addr)
            ∧ (CursorMut.TLB_FLUSH_THRESHOLD ≤ len → tr = [FlushEvent.all]))
      ∧ (∀ pt2 tr, CursorMut.protect pt pos len op = Except.ok (pt2, tr) →
          (len < CursorMut.TLB_FLUSH_THRESHOLD →
              tr = (keysIn pt pos (pos + len)).map FlushEvent.addr)
            ∧ (CursorMut.TLB_FLUSH_THRESHOLD ≤ len → tr = [FlushEvent.all])) := by
  refine ⟨rfl, ?_, ?_⟩
  · intro pt2 tr h
    by_cases hal : len % PAGE_SIZE = 0
    · simp only [CursorMut.unmap, hal, if_true] at h
      cases h2 : unmapRange pt pos (pos + len) with
      | error k => rw [h2] at h; simp at h
      | ok pr =>
        obtain ⟨pta, removed⟩ := pr
        rw [h2] at h
        simp only [Except.ok.injEq, Prod.mk.injEq] at h
        have hremoved :=
          unmapRange_removed pt pos (pos + len) hsorted pta removed h2
        constructor
        · intro hlt
          have hnot : ¬ CursorMut.TLB_FLUSH_THRESHOLD ≤ len := by omega
          rw [← h.2, if_neg hnot, hremoved]
        · intro hge
          rw [← h.2, if_pos hge]
    · simp [CursorMut.unmap, hal] at h
  · intro pt2 tr h
    by_cases hal : len % PAGE_SIZE = 0
    · simp only [CursorMut.protect, hal, if_true, Except.ok.injEq,
        Prod.mk.injEq] at h
      have htouched := protectRange_touched op pt pos (pos + len) hsorted
      constructor
      · intro hlt
        have hnot : ¬ CursorMut.TLB_FLUSH_THRESHOLD ≤ len := by omega
        rw [← h.2, if_neg hnot, htouched]
      · intro hge
        rw [← h.2, if_pos hge]
    · simp [CursorMut.protect, hal] at h

/-- A two-page sorted table for the C4 witness. -/
def ptC4 : PT :=
  [(0, SlotContent.mapped (PageKind.frame 1) propRW),
   (PAGE_SIZE, SlotContent.mapped (PageKind.frame 2) propRW)]

/-- C4 witness: unmapping one page (below the threshold) of a concrete
two-page table flushes exactly the removed mapping's address. -/
theorem c4_unmap_protect_tlb_threshold_witness :
    ([FlushEvent.addr 0] : List FlushEvent)
      = (trackedKeysIn ptC4 0 (0 + PAGE_SIZE)).map FlushEvent.addr :=
  ((c4_unmap_protect_tlb_threshold ptC4 0 PAGE_SIZE cowOp (by decide)).2.1
    [(PAGE_SIZE, SlotContent.mapped (PageKind.frame 2) propRW)]
    [FlushEvent.addr 0] rfl).1 (by decide)

/-- Looking up a key smaller than every key of the table finds nothing. -/
lemma lookupPT_eq_none_of_lt (pt : PT) (va : Nat)
    (h : ∀ e ∈ pt, va < e.1) : lookupPT pt va = none := by
  have hfind : pt.find? (fun e => e.1 == va) = none := by
    rw [List.find?_eq_none]
    intro e he
    have := h e he
    simp only [beq_iff_eq]
    omega
  simp [lookupPT, hfind]

/-- Lookup skips a head entry with a different key. -/
lemma lookupPT_cons_ne (e : Nat × SlotContent) (rest : PT) (va : Nat)
    (h : ¬ e.1 = va) : lookupPT (e :: rest) va = lookupPT rest va := by
  simp only [lookupPT]
  rw [List.find?_cons_of_neg]
  simp [h]

/-- Lookup returns a head entry with a matching key. -/
lemma lookupPT_cons_eq (e : Nat × SlotContent) (rest : PT) (va : Nat)
    (h : e.1 = va) : lookupPT (e :: rest) va = some e.2 := by
  simp only [lookupPT]
  rw [List.find?_cons_of_pos]
  · rfl
  · simp [h]

/-- On a sorted table, a `protect_next` walk over `[lo, hi)` transforms the
property of the slot at any `va` of that range and nothing else of it. -/
lemma lookupPT_protectRange (op : PageProperty → PageProperty) :
    ∀ (pt : PT) (lo hi va : Nat),
      List.Pairwise (fun a b => a.1 < b.1) pt →
      lo ≤ va → va < hi →
      lookupPT (protectRange op pt lo hi).1 va
        = (lookupPT pt va).map (SlotContent.applyProp op) := by
  intro pt
  induction pt with
  | nil => intro lo hi va _ _ _; simp [protectRange, lookupPT]
  | cons e rest ih =>
    intro lo hi va hs hlo hhi
    have hhead : ∀ b ∈ rest, e.1 < b.1 := (List.pairwise_cons.mp hs).1
    have htail := (List.pairwise_cons.mp hs).2
    simp only [protectRange]
    split
    · next hlt =>
      have hne : ¬ e.1 = va := by omega
      rw [lookupPT_cons_ne _ _ _ hne, lookupPT_cons_ne _ _ _ hne]
      exact ih lo hi va htail hlo hhi
    · split
      · next hnlt hge =>
        have hne : ¬ e.1 = va := by omega
        rw [lookupPT_cons_ne _ _ _ hne]
        have hnone : lookupPT rest va = none :=
          lookupPT_eq_none_of_lt rest va (fun b hb => by
            have := hhead b hb; omega)
        rw [hnone]
        rfl
      · next hnlt hnge =>
        by_cases hva : e.1 = va
        · rw [lookupPT_cons_eq (e.1, SlotContent.applyProp op e.2)
              (protectRange op rest lo hi).1 va hva,
            lookupPT_cons_eq e rest va hva]
          rfl
        · rw [lookupPT_cons_ne (e.1, SlotContent.applyProp op e.2)
              (protectRange op rest lo hi).1 va hva,
            lookupPT_cons_ne e rest va hva]
          exact ih lo hi va htail hlo hhi

/-- `insertPT` makes the inserted slot visible at its key. -/
lemma lookupPT_insertPT (pt : PT) (va : Nat) (c : SlotContent) :
    lookupPT (insertPT pt va c) va = some c := by
  induction pt with
  | nil => exact lookupPT_cons_eq _ _ _ rfl
  | cons e rest ih =>
    simp only [insertPT]
    split
    · exact lookupPT_cons_eq _ _ _ rfl
    · split
      · exact lookupPT_cons_eq _ _ _ rfl
      · next h1 h2 =>
        rw [lookupPT_cons_ne _ _ _ (by omega)]
        exact ih

/-- C5.  After `fork_copy_on_write`, parent and child see, at every address
the parent had mapped, the same page handle with the write permission
removed; the child starts with an empty activation set and the parent's
handler value; and a subsequent `map` on either side's table changes only
that side — the other side's slot still holds the shared, write-protected
page. -/
theorem c5_fork_cow_shared_and_isolated (H : Type) (vs : VmSpace H)
    (va : Nat) (page : PageKind) (prop : PageProperty)
    (hsorted : List.Pairwise (fun a b => a.1 < b.1) vs.pt)
    (hva : va < MAX_USERSPACE_VADDR)
    (hlook : lookupPT vs.pt va = some (SlotContent.mapped page prop)) :
    lookupPT (VmSpace.fork_copy_on_write vs).1.pt va
        = some (SlotContent.mapped page (cowOp prop))
      ∧ lookupPT (VmSpace.fork_copy_on_write vs).2.1.pt va
        = some (SlotContent.mapped page (cowOp prop))
      ∧ (cowOp prop).flags.w = false
      ∧ (VmSpace.fork_copy_on_write vs).2.1.activatedCpus = []
      ∧ (VmSpace.fork_copy_on_write vs).2.1.pageFaultHandler
        = vs.pageFaultHandler
      ∧ ∀ page2 prop2,
          lookupPT
              (CursorMut.map (VmSpace.fork_copy_on_write vs).2.1.pt va
                page2 prop2).1 va
              = some (SlotContent.mapped page2 (setAccessed prop2))
            ∧ lookupPT (VmSpace.fork_copy_on_write vs).1.pt va
              = some (SlotContent.mapped page (cowOp prop))
            ∧ lookupPT
                (CursorMut.map (VmSpace.fork_copy_on_write vs).1.pt va
                  page2 prop2).1 va
              = some (SlotContent.mapped page2 (setAccessed prop2))
            ∧ lookupPT (VmSpace.fork_copy_on_write vs).2.1.pt va
              = some (SlotContent.mapped page (cowOp prop)) := by
  have hpt : lookupPT (protectRange cowOp vs.pt 0 MAX_USERSPACE_VADDR).1 va
      = some (SlotContent.mapped page (cowOp prop)) := by
    rw [lookupPT_protectRange cowOp vs.pt 0 MAX_USERSPACE_VADDR va hsorted
      (Nat.zero_le va) hva, hlook]
    rfl
  refine ⟨hpt, hpt, rfl, rfl, rfl, ?_⟩
  intro page2 prop2
  exact ⟨lookupPT_insertPT _ va _, hpt, lookupPT_insertPT _ va _, hpt⟩

/-- A one-page parent space with a handler for the C5 witness. -/
def vsC5 : VmSpace Nat :=
  { pt := [(0, SlotContent.mapped (PageKind.frame 3) propRW)],
    pageFaultHandler := some 9, activatedCpus := [] }

/-- C5 witness: a concrete fork where parent and child both see frame 3 at
address 0 with the write bit cleared. -/
theorem c5_fork_cow_witness :
    lookupPT (VmSpace.fork_copy_on_write vsC5).1.pt 0
        = some (SlotContent.mapped (PageKind.frame 3) (cowOp propRW))
      ∧ lookupPT (VmSpace.fork_copy_on_write vsC5).2.1.pt 0
        = some (SlotContent.mapped (PageKind.frame 3) (cowOp propRW)) :=
  ⟨(c5_fork_cow_shared_and_isolated Nat vsC5 0 (PageKind.frame 3) propRW
      (by decide) (by decide) rfl).1,
   (c5_fork_cow_shared_and_isolated Nat vsC5 0 (PageKind.frame 3) propRW
      (by decide) (by decide) rfl).2.1⟩
